import Mathlib

/-!
# Verification of the disaster-response resource core

Shallow embedding of the repository's resource subsystem:

* the cache helpers `getCachedData`, `setCachedData`, `cleanExpiredCache`
  (src/unnamed/part_003, the `utils/cache.js` module);
* the resource routes `GET /resources/:disasterId` and `POST /resources`
  together with `generateMockResources` and `calculateDistance`
  (src/server/routes/resources.js).

Timestamps are rationals measured in milliseconds, matching the JavaScript
`Date` comparisons; coordinates and other request-level numbers are rationals,
except for the haversine distance function, which is embedded over the reals.
-/

namespace DisasterApp

/-! ## Cache store (utils/cache.js)

The `cache` table is modelled as an association list of rows
`(key, value, expires_at)`.  The `key` column is the primary key, so a lookup
(`.eq('key', key).single()`) returns the first row with the key, and a delete
(`.delete().eq('key', key)`) removes every row with the key. -/

/-- The cache table: rows of key, stored value and expiry timestamp (ms). -/
abbrev Cache (α : Type) : Type := List (String × α × ℚ)

/-- Row returned by `select('value, expires_at').eq('key', key).single()`. -/
def lookupKey {α : Type} (key : String) : Cache α → Option (α × ℚ)
  | [] => none
  | (k, v, e) :: rest => if k = key then some (v, e) else lookupKey key rest

/-- Effect of `from('cache').delete().eq('key', key)`. -/
def eraseKey {α : Type} (key : String) : Cache α → Cache α
  | [] => []
  | (k, v, e) :: rest =>
      if k = key then eraseKey key rest else (k, v, e) :: eraseKey key rest

/-- `getCachedData(key)` from utils/cache.js: look the key up; a missing row
(`PGRST116`) yields `null`; a row with `new Date(expires_at) < new Date()` is
deleted and `null` is returned; otherwise the stored value is returned.
The result is the returned value paired with the cache table after the
read-path eviction side effect. -/
def getCachedData {α : Type} (cache : Cache α) (key : String) (now : ℚ) :
    Option α × Cache α :=
  match lookupKey key cache with
  | none => (none, cache)
  | some (v, expiresAt) =>
      if expiresAt < now then (none, eraseKey key cache)
      else (some v, cache)

/-- Effect of `from('cache').upsert({key, value, expires_at})`: the row with
the primary key is replaced in place, or appended when absent. -/
def upsertKey {α : Type} (key : String) (value : α) (e : ℚ) : Cache α → Cache α
  | [] => [(key, value, e)]
  | (k, v0, e0) :: rest =>
      if k = key then (key, value, e) :: rest
      else (k, v0, e0) :: upsertKey key value e rest

/-- `setCachedData(key, value, ttlSeconds)` from utils/cache.js:
upsert with `expires_at = Date.now() + ttlSeconds * 1000`. -/
def setCachedData {α : Type} (cache : Cache α) (key : String) (value : α)
    (ttlSeconds : ℚ) (now : ℚ) : Cache α :=
  upsertKey key value (now + ttlSeconds * 1000) cache

/-- `cleanExpiredCache()` from utils/cache.js:
`from('cache').delete().lt('expires_at', now)` keeps exactly the rows whose
expiry is not strictly below the current time. -/
def cleanExpiredCache {α : Type} (cache : Cache α) (now : ℚ) : Cache α :=
  cache.filter (fun r => decide (¬ (r.2.2 < now)))

/-! ## Haversine distance (calculateDistance in routes/resources.js)

`Math.atan2` is embedded with its standard real-valued semantics; the route
only ever reaches the `0 < x` branch. -/

/-- JavaScript `Math.atan2(y, x)` over the reals. -/
noncomputable def atan2 (y x : ℝ) : ℝ :=
  if 0 < x then Real.arctan (y / x)
  else if x < 0 then
    (if 0 ≤ y then Real.arctan (y / x) + Real.pi
     else Real.arctan (y / x) - Real.pi)
  else
    (if 0 < y then Real.pi / 2 else if y < 0 then -(Real.pi / 2) else 0)

/-- The intermediate `a` of `calculateDistance`:
`sin(dLat/2)·sin(dLat/2) + cos(lat1·π/180)·cos(lat2·π/180)·sin(dLng/2)·sin(dLng/2)`
with `dLat = (lat2-lat1)·π/180` and `dLng = (lng2-lng1)·π/180`. -/
noncomputable def haversineA (lat1 lng1 lat2 lng2 : ℝ) : ℝ :=
  Real.sin ((lat2 - lat1) * Real.pi / 180 / 2) *
      Real.sin ((lat2 - lat1) * Real.pi / 180 / 2) +
    Real.cos (lat1 * Real.pi / 180) * Real.cos (lat2 * Real.pi / 180) *
      Real.sin ((lng2 - lng1) * Real.pi / 180 / 2) *
      Real.sin ((lng2 - lng1) * Real.pi / 180 / 2)

/-- `calculateDistance(lat1, lng1, lat2, lng2)` from routes/resources.js:
`R · c` with `R = 6371` and `c = 2·atan2(√a, √(1−a))`. -/
noncomputable def calculateDistance (lat1 lng1 lat2 lng2 : ℝ) : ℝ :=
  6371 *
    (2 * atan2 (Real.sqrt (haversineA lat1 lng1 lat2 lng2))
      (Real.sqrt (1 - haversineA lat1 lng1 lat2 lng2)))

/-- The haversine formula exactly as the specification writes it,
`a = sin²(Δlat/2) + cos(lat1)·cos(lat2)·sin²(Δlng/2);
c = 2·atan2(√a, √(1−a)); distance = R·c` with `R = 6371`,
taking its angles in radians. -/
noncomputable def haversineSpecification (lat1 lng1 lat2 lng2 : ℝ) : ℝ :=
  6371 *
    (2 * atan2
      (Real.sqrt (Real.sin ((lat2 - lat1) / 2) ^ 2 +
        Real.cos lat1 * Real.cos lat2 * Real.sin ((lng2 - lng1) / 2) ^ 2))
      (Real.sqrt (1 - (Real.sin ((lat2 - lat1) / 2) ^ 2 +
        Real.cos lat1 * Real.cos lat2 * Real.sin ((lng2 - lng1) / 2) ^ 2))))

/-! ## JavaScript value plumbing

Express hands query-string parameters to the route as strings (or
`undefined`), while `POST` bodies arrive JSON-parsed, so numeric fields are
numbers.  Truthiness tests (`if (lat && lng)`, `!disaster_id`) therefore
behave differently at the two interfaces and are modelled separately. -/

/-- JavaScript truthiness of a possibly absent string: `undefined` and the
empty string are falsy, every other string (including "0") is truthy. -/
def truthyStr : Option String → Bool
  | none => false
  | some s => decide (s ≠ "")

/-- JavaScript truthiness of a possibly absent JSON number: `undefined` and
0 are falsy. -/
def truthyNum : Option ℚ → Bool
  | none => false
  | some q => decide (q ≠ 0)

def digitsToNat : List Char → ℕ → Option ℕ
  | [], acc => some acc
  | c :: cs, acc =>
      if c.isDigit then digitsToNat cs (acc * 10 + (c.toNat - 48)) else none

def splitAtDot : List Char → List Char × List Char
  | [] => ([], [])
  | c :: rest =>
      if c = '.' then ([], rest)
      else
        let p := splitAtDot rest
        (c :: p.1, p.2)

/-- JavaScript `parseFloat`, modelled on well-formed decimal literals
(optional leading minus, digits, optional fractional digits).  Other strings
give NaN in JavaScript; no in-scope claim exercises them and they are mapped
to 0 here. -/
def parseFloatQ (s : String) : ℚ :=
  let cs := s.data
  let neg := cs.head? = some '-'
  let cs2 := if neg then cs.tail else cs
  let p := splitAtDot cs2
  match digitsToNat p.1 0, digitsToNat p.2 0 with
  | some ip, some fp =>
      let den : ℕ := 10 ^ p.2.length
      let mag : ℚ := mkRat (ip * den + fp) den
      if neg then -mag else mag
  | _, _ => 0

/-- JavaScript `parseInt` on the same class of literals: the integer part. -/
def parseIntQ (s : String) : ℚ :=
  let cs := s.data
  let neg := cs.head? = some '-'
  let cs2 := if neg then cs.tail else cs
  match digitsToNat (splitAtDot cs2).1 0 with
  | some ip => if neg then -(mkRat ip 1) else mkRat ip 1
  | none => 0

/-- Minimal JSON value, used where the presence of a key in a serialized
object matters (a JavaScript object field holding `null` is serialized, an
absent field is not). -/
inductive JVal where
  | nullV : JVal
  | numV : ℚ → JVal
  | strV : String → JVal
  | objV : List (String × String) → JVal
  deriving DecidableEq

/-! ## Data model of the resource routes -/

/-- A supabase error as observed by the routes: only its `code` matters
(`PGRST116` = no row found for `.single()`). -/
structure DbErr where
  code : String
  deriving DecidableEq

/-- The columns of the `disasters` row the GET route selects. -/
structure Disaster where
  id : String
  title : String
  deriving DecidableEq

/-- A persisted row of the `resources` table as the route sees it; the
`distance_km` column is only ever produced by the within-distance query,
never stored in the table. -/
structure RealRes where
  id : String
  disaster_id : String
  name : String
  location_name : String
  lat : Option ℚ
  lng : Option ℚ
  type : String
  capacity : ℕ
  created_at : String
  distance_km : Option ℚ := none
  deriving DecidableEq

/-- One entry of the `baseResources` array in `generateMockResources`. -/
structure BaseResource where
  name : String
  type : String
  capacity : ℕ
  contact_info : List (String × String)
  deriving DecidableEq

def baseResources : List BaseResource :=
  [ { name := "Community Emergency Shelter", type := "shelter", capacity := 200,
      contact_info := [("phone", "(555) 123-4567"), ("email", "shelter@community.org")] },
    { name := "City General Hospital", type := "medical", capacity := 150,
      contact_info := [("phone", "(555) 987-6543"), ("emergency", "911")] },
    { name := "Food Distribution Center", type := "food", capacity := 500,
      contact_info := [("phone", "(555) 456-7890"), ("hours", "9AM-6PM")] },
    { name := "Emergency Supply Station", type := "supplies", capacity := 300,
      contact_info := [("phone", "(555) 234-5678"), ("coordinator", "Jane Smith")] },
    { name := "Temporary Housing Complex", type := "housing", capacity := 100,
      contact_info := [("phone", "(555) 345-6789"), ("manager", "Bob Johnson")] } ]

/-- A synthesized (mock) resource as built by `generateMockResources`. -/
structure MockResource where
  id : String
  disaster_id : String
  name : String
  type : String
  capacity : ℕ
  contact_info : List (String × String)
  location_name : String
  latitude : ℚ
  longitude : ℚ
  distance_km : Option ℚ
  created_at : String
  deriving DecidableEq

/-- The JSON object literal built for one synthesized resource, with its keys
in source order.  The `distance_km` key is ALWAYS present: it holds `null`
when no center was given, a number otherwise. -/
def MockResource.jsonFields (m : MockResource) : List (String × JVal) :=
  [ ("id", JVal.strV m.id),
    ("disaster_id", JVal.strV m.disaster_id),
    ("name", JVal.strV m.name),
    ("type", JVal.strV m.type),
    ("capacity", JVal.numV m.capacity),
    ("contact_info", JVal.objV m.contact_info),
    ("location_name", JVal.strV m.location_name),
    ("latitude", JVal.numV m.latitude),
    ("longitude", JVal.numV m.longitude),
    ("distance_km", match m.distance_km with
      | some q => JVal.numV q
      | none => JVal.nullV),
    ("created_at", JVal.strV m.created_at) ]

/-- `generateMockResources(disasterId, centerLat, centerLng)` from
routes/resources.js.  `centerLat`/`centerLng` are the raw query strings.
`rand i` is the value of the i-th `Math.random()` call (two calls per
resource, latitude offset first), `uuid i` the value of the i-th `uuidv4()`
call, `dist` the numeric distance routine (`calculateDistance` at the number
level) and `nowIso` the `new Date().toISOString()` string. -/
def generateMockResources (disasterId : String)
    (centerLat centerLng : Option String) (rand : ℕ → ℚ) (uuid : ℕ → String)
    (dist : ℚ → ℚ → ℚ → ℚ → ℚ) (nowIso : String) : List MockResource :=
  (baseResources.enum).map fun p =>
    let index := p.1
    let resource := p.2
    let hasCenter := truthyStr centerLat && truthyStr centerLng
    let offsetLat := (rand (2 * index) - 1/2) * (1/10)
    let offsetLng := (rand (2 * index + 1) - 1/2) * (1/10)
    let lat : ℚ :=
      if hasCenter then parseFloatQ (centerLat.getD "") + offsetLat
      else 407128/10000 + offsetLat
    let lng : ℚ :=
      if hasCenter then parseFloatQ (centerLng.getD "") + offsetLng
      else -740060/10000 + offsetLng
    { id := uuid index,
      disaster_id := disasterId,
      name := resource.name,
      type := resource.type,
      capacity := resource.capacity,
      contact_info := resource.contact_info,
      location_name := resource.name ++ " Location",
      latitude := lat,
      longitude := lng,
      distance_km :=
        if hasCenter then
          some (dist (parseFloatQ (centerLat.getD ""))
            (parseFloatQ (centerLng.getD "")) lat lng)
        else none,
      created_at := nowIso }

/-! ## GET /resources/:disasterId -/

/-- The parameters of the within-distance query. -/
structure GeoFilter where
  center_lat : ℚ
  center_lng : ℚ
  radius_meters : ℚ
  deriving DecidableEq

/-- The supabase query the GET handler builds: scoped to the disaster, with
an `eq('type', type)` filter when `type` is truthy, and the within-distance
RPC when both raw coordinate strings are truthy. -/
structure ResourceQuery where
  disasterId : String
  typeFilter : Option String
  geo : Option GeoFilter
  deriving DecidableEq

/-- Rendering of a query value inside the cache-key template literal:
`undefined` renders as the string "undefined". -/
def showQueryVal : Option String → String
  | none => "undefined"
  | some s => s

/-- The `radius` query value with its destructuring default 10000 applied. -/
def radiusStr : Option String → String
  | none => "10000"
  | some s => s

/-- `radius / 1000` of the response, with JavaScript numeric coercion of the
query string. -/
def radiusNum : Option String → ℚ
  | none => 10000
  | some s => parseFloatQ s

/-- The cache key `resources_${disasterId}_${lat}_${lng}_${radius}_${type}`. -/
def cacheKeyOf (disasterId : String) (lat lng radius qtype : Option String) :
    String :=
  "resources_" ++ disasterId ++ "_" ++ showQueryVal lat ++ "_" ++
    showQueryVal lng ++ "_" ++ radiusStr radius ++ "_" ++ showQueryVal qtype

/-- Lines 40-59 of routes/resources.js: the query built from the request. -/
def resourceQuery (disasterId : String) (lat lng radius qtype : Option String) :
    ResourceQuery :=
  { disasterId := disasterId,
    typeFilter := if truthyStr qtype then qtype else none,
    geo :=
      if truthyStr lat && truthyStr lng then
        some { center_lat := parseFloatQ (lat.getD ""),
               center_lng := parseFloatQ (lng.getD ""),
               radius_meters := parseIntQ (radiusStr radius) }
      else none }

/-- Modelled from the spec: the PostGIS RPC `get_resources_within_distance`
is invoked by the route but defined nowhere in the repository (the migration
creates no such function).  Following spec steps 3 and 5, it keeps exactly
the rows whose stored point lies within `radius_meters` of the center under
the great-circle distance and returns each kept row together with its
computed distance-to-center in kilometers; rows without a stored point
cannot match.  `dist` is the numeric distance routine. -/
def getResourcesWithinDistance (rows : List RealRes) (g : GeoFilter)
    (dist : ℚ → ℚ → ℚ → ℚ → ℚ) : List RealRes :=
  rows.filterMap fun r =>
    match r.lat, r.lng with
    | some la, some ln =>
        let d := dist g.center_lat g.center_lng la ln
        if d * 1000 ≤ g.radius_meters then some { r with distance_km := some d }
        else none
    | _, _ => none

/-- Executing the built query against the `resources` table. -/
def runQuery (table : List RealRes) (q : ResourceQuery)
    (dist : ℚ → ℚ → ℚ → ℚ → ℚ) : List RealRes :=
  let base := table.filter fun r =>
    decide (r.disaster_id = q.disasterId) &&
      match q.typeFilter with
      | none => true
      | some t => decide (r.type = t)
  match q.geo with
  | none => base
  | some g => getResourcesWithinDistance base g dist

/-- A resource in the GET response: a persisted row passed through verbatim,
or a synthesized one. -/
inductive ResOut where
  | real : RealRes → ResOut
  | mock : MockResource → ResOut
  deriving DecidableEq

/-- The response object of the GET route. -/
structure GetPayload where
  disaster_id : String
  disaster_title : String
  search_center : Option (ℚ × ℚ)
  search_radius_km : ℚ
  total_resources : ℕ
  resources : List ResOut
  last_updated : String
  deriving DecidableEq

/-- The JSON body sent by the GET route. -/
inductive GetBody where
  | payload : GetPayload → GetBody
  | disasterNotFound : GetBody
  | fetchDisasterFailed : GetBody
  | fetchResourcesFailed : GetBody
  deriving DecidableEq

/-- Everything the GET handler observes: the request, the cache table, the
clock, the two datastore answers, and the nondeterministic sources. -/
structure GetEnv where
  disasterId : String
  lat : Option String
  lng : Option String
  radius : Option String
  qtype : Option String
  cache : Cache GetPayload
  now : ℚ
  nowIso : String
  disasterResult : Except DbErr Disaster
  table : List RealRes
  dbFault : Bool
  rand : ℕ → ℚ
  uuid : ℕ → String
  dist : ℚ → ℚ → ℚ → ℚ → ℚ

/-- The outcome of one GET request: HTTP status, body, the cache table after
the handler's reads and writes, and the `resources` table afterwards (the
GET path never writes it). -/
structure GetOut where
  status : ℕ
  body : GetBody
  cache : Cache GetPayload
  table : List RealRes

/-- The `search_center` echo: non-null exactly when both raw query strings
are truthy. -/
def searchCenterOf (lat lng : Option String) : Option (ℚ × ℚ) :=
  if truthyStr lat && truthyStr lng then
    some (parseFloatQ (lat.getD ""), parseFloatQ (lng.getD ""))
  else none

/-- The handler of `GET /resources/:disasterId` (lines 11-108 of
routes/resources.js): cache probe first; then disaster existence check
(`PGRST116` → 404, other error → 500); then the scoped resource query
(error → 500); zero rows → synthesize five mock resources; finally build the
response, cache it for 1800 seconds and return it with status 200. -/
def handleGetResources (env : GetEnv) : GetOut :=
  let key := cacheKeyOf env.disasterId env.lat env.lng env.radius env.qtype
  let probe := getCachedData env.cache key env.now
  match probe.1 with
  | some v => { status := 200, body := GetBody.payload v, cache := probe.2,
                table := env.table }
  | none =>
    match env.disasterResult with
    | Except.error e =>
        if e.code = "PGRST116" then
          { status := 404, body := GetBody.disasterNotFound, cache := probe.2,
            table := env.table }
        else
          { status := 500, body := GetBody.fetchDisasterFailed,
            cache := probe.2, table := env.table }
    | Except.ok d =>
        if env.dbFault then
          { status := 500, body := GetBody.fetchResourcesFailed,
            cache := probe.2, table := env.table }
        else
          let rows := runQuery env.table
            (resourceQuery env.disasterId env.lat env.lng env.radius env.qtype)
            env.dist
          if rows.length = 0 then
            let mocks := generateMockResources env.disasterId env.lat env.lng
              env.rand env.uuid env.dist env.nowIso
            let payload : GetPayload :=
              { disaster_id := env.disasterId,
                disaster_title := d.title,
                search_center := searchCenterOf env.lat env.lng,
                search_radius_km := radiusNum env.radius / 1000,
                total_resources := mocks.length,
                resources := mocks.map ResOut.mock,
                last_updated := env.nowIso }
            { status := 200, body := GetBody.payload payload,
              cache := setCachedData probe.2 key payload 1800 env.now,
              table := env.table }
          else
            let payload : GetPayload :=
              { disaster_id := env.disasterId,
                disaster_title := d.title,
                search_center := searchCenterOf env.lat env.lng,
                search_radius_km := radiusNum env.radius / 1000,
                total_resources := rows.length,
                resources := rows.map ResOut.real,
                last_updated := env.nowIso }
            { status := 200, body := GetBody.payload payload,
              cache := setCachedData probe.2 key payload 1800 env.now,
              table := env.table }

/-- The payload of a 200 response, when there is one. -/
def GetOut.payloadOf (o : GetOut) : Option GetPayload :=
  match o.body with
  | GetBody.payload p => some p
  | _ => none

/-- The resource list of a 200 payload, empty otherwise. -/
def GetOut.resourcesOf (o : GetOut) : List ResOut :=
  match o.body with
  | GetBody.payload p => p.resources
  | _ => []

/-- The payload of a GET 200 response mapped to its echoed center. -/
def GetOut.centerEcho (o : GetOut) : Option (Option (ℚ × ℚ)) :=
  (o.payloadOf).map GetPayload.search_center

/-- The base point the mock generator jitters around: the parsed center when
both raw coordinates are truthy, the NYC default (40.7128, -74.0060)
otherwise. -/
def jitterBase (lat lng : Option String) : ℚ × ℚ :=
  if truthyStr lat && truthyStr lng then
    (parseFloatQ (lat.getD ""), parseFloatQ (lng.getD ""))
  else (407128/10000, -740060/10000)

/-- The synthesized resources of one GET request. -/
def mocksOf (env : GetEnv) : List MockResource :=
  generateMockResources env.disasterId env.lat env.lng env.rand env.uuid
    env.dist env.nowIso

/-! ## POST /resources -/

/-- The JSON body of a POST /resources request.  Numeric fields arrive as
JSON numbers (the body is JSON-parsed, unlike query strings). -/
structure PostBody where
  disaster_id : Option String
  name : Option String
  location_name : Option String
  lat : Option ℚ
  lng : Option ℚ
  type : Option String
  capacity : Option ℕ
  contact_info : Option (List (String × String))

/-- The record the POST handler inserts; `location` is the
`POINT(lng lat)` value, stored as the pair (lng, lat), set only when both
numeric coordinates are truthy. -/
structure NewResource where
  id : String
  disaster_id : String
  name : String
  location_name : Option String
  type : String
  capacity : ℕ
  contact_info : List (String × String)
  location : Option (ℚ × ℚ)
  deriving DecidableEq

/-- An event emitted through `req.io.to(room).emit(event, payload)`. -/
structure Emitted where
  room : String
  event : String
  payload : NewResource
  deriving DecidableEq

inductive PostRespBody where
  | badRequest : PostRespBody
  | createFailed : PostRespBody
  | created : NewResource → PostRespBody
  deriving DecidableEq

structure PostEnv where
  body : PostBody
  uuid : String
  insertFault : Bool
  table : List NewResource

structure PostOut where
  status : ℕ
  body : PostRespBody
  table : List NewResource
  events : List Emitted

/-- The record built by the POST handler before inserting (lines 197-210 of
routes/resources.js); the `POINT(lng lat)` location is attached only when
both numeric coordinates are truthy. -/
def newResourceOf (b : PostBody) (uuid : String) : NewResource :=
  { id := uuid,
    disaster_id := b.disaster_id.getD "",
    name := b.name.getD "",
    location_name := b.location_name,
    type := b.type.getD "",
    capacity := b.capacity.getD 0,
    contact_info := b.contact_info.getD [],
    location :=
      if truthyNum b.lat && truthyNum b.lng then
        some (b.lng.getD 0, b.lat.getD 0)
      else none }

/-- The handler of `POST /resources` (lines 178-233 of routes/resources.js):
falsy `disaster_id`/`name`/`type` → 400 before any datastore access; insert
failure → 500 and no broadcast; success → one `resources_updated` event to
the room `disaster_${disaster_id}` carrying the persisted record, and 201. -/
def handlePostResource (env : PostEnv) : PostOut :=
  let b := env.body
  if !(truthyStr b.disaster_id && truthyStr b.name && truthyStr b.type) then
    { status := 400, body := PostRespBody.badRequest, table := env.table,
      events := [] }
  else
    let resource : NewResource := newResourceOf b env.uuid
    if env.insertFault then
      { status := 500, body := PostRespBody.createFailed, table := env.table,
        events := [] }
    else
      { status := 201, body := PostRespBody.created resource,
        table := env.table ++ [resource],
        events := [{ room := "disaster_" ++ b.disaster_id.getD "",
                     event := "resources_updated", payload := resource }] }

def postBodyC9 : PostBody :=
  { disaster_id := none, name := some "Shelter A", location_name := none,
    lat := none, lng := none, type := some "shelter", capacity := none,
    contact_info := none }

def postEnvC9 : PostEnv :=
  { body := postBodyC9, uuid := "uuid-1", insertFault := false, table := [] }

def postBodyC7 : PostBody :=
  { disaster_id := some "d1", name := some "Shelter A",
    location_name := some "Main St", lat := some 40, lng := some (-74),
    type := some "shelter", capacity := some 10, contact_info := none }

def postEnvC7 : PostEnv :=
  { body := postBodyC7, uuid := "uuid-1", insertFault := false, table := [] }

/-! ## Claims about GET /resources/:disasterId -/

def cachedPayloadC5 : GetPayload :=
  { disaster_id := "d1", disaster_title := "T", search_center := none,
    search_radius_km := 10, total_resources := 0, resources := [],
    last_updated := "t0" }

def getEnvC5 : GetEnv :=
  { disasterId := "d1", lat := none, lng := none, radius := none,
    qtype := none,
    cache := [("resources_d1_undefined_undefined_10000_undefined",
      cachedPayloadC5, 10)],
    now := 5, nowIso := "t1",
    disasterResult := Except.error { code := "PGRST116" },
    table := [], dbFault := false, rand := fun _ => 1/2,
    uuid := fun _ => "u", dist := fun _ _ _ _ => 0 }

def getEnvC5m : GetEnv :=
  { disasterId := "d1", lat := none, lng := none, radius := none,
    qtype := none, cache := [], now := 5, nowIso := "t1",
    disasterResult := Except.error { code := "PGRST116" },
    table := [], dbFault := false, rand := fun _ => 1/2,
    uuid := fun _ => "u", dist := fun _ _ _ _ => 0 }

def disasterC1 : Disaster := { id := "d1", title := "T" }

def getEnvC1 : GetEnv :=
  { disasterId := "d1", lat := none, lng := none, radius := none,
    qtype := none, cache := [], now := 5, nowIso := "t1",
    disasterResult := Except.ok disasterC1,
    table := [], dbFault := false, rand := fun _ => 1/2,
    uuid := fun i => toString i, dist := fun _ _ _ _ => 0 }

def getEnvC6 : GetEnv :=
  { disasterId := "d1", lat := none, lng := none, radius := none,
    qtype := none, cache := [], now := 0, nowIso := "t1",
    disasterResult := Except.ok { id := "d1", title := "T" },
    table := [], dbFault := false, rand := fun _ => 1/2,
    uuid := fun _ => "u", dist := fun _ _ _ _ => 0 }

def getEnvC10 : GetEnv :=
  { disasterId := "d1", lat := some "0", lng := some "0", radius := none,
    qtype := none, cache := [], now := 0, nowIso := "t1",
    disasterResult := Except.ok { id := "d1", title := "T" },
    table := [], dbFault := false, rand := fun _ => 1/2,
    uuid := fun _ => "u", dist := fun _ _ _ _ => 0 }

/-! ## Theorems -/

theorem lookupKey_upsertKey {α : Type} (key : String) (value : α) (e : ℚ)
    (cache : Cache α) :
    lookupKey key (upsertKey key value e cache) = some (value, e) := by
  induction cache with
  | nil => simp [upsertKey, lookupKey]
  | cons hd tl ih =>
      obtain ⟨k, v0, e0⟩ := hd
      by_cases hk : k = key
      · simp [upsertKey, hk, lookupKey]
      · simp [upsertKey, hk, lookupKey, ih]

/-- C2 (counterexample): at the exact expiry instant the code still returns
the stored value, because expiry is tested with a strict `<` comparison
(`new Date(expires_at) < new Date()`); the claim predicts absence unless the
expiry is strictly greater than the current time. -/
theorem C2_cex_get_at_exact_expiry :
    (getCachedData [("k", (37 : ℕ), (5 : ℚ))] "k" 5).1 = some 37 ∧
      ¬ ((5 : ℚ) < 5) := by
  refine ⟨by decide, by norm_num⟩

/-- C2 (amended): `getCachedData` returns the stored value exactly when an
entry for the key exists and its expiry timestamp is greater than OR EQUAL TO
the current time; when the found entry's expiry is strictly below the current
time it is deleted and absence is returned; a missing key returns absence and
leaves the table unchanged. -/
theorem C2_getCachedData_spec {α : Type} (cache : Cache α) (key : String)
    (now : ℚ) :
    (lookupKey key cache = none → getCachedData cache key now = (none, cache)) ∧
    (∀ v expiresAt, lookupKey key cache = some (v, expiresAt) →
      (now ≤ expiresAt → getCachedData cache key now = (some v, cache)) ∧
      (expiresAt < now →
        getCachedData cache key now = (none, eraseKey key cache))) := by
  constructor
  · intro h
    simp [getCachedData, h]
  · intro v expiresAt h
    constructor
    · intro hle
      simp [getCachedData, h, not_lt.mpr hle]
    · intro hlt
      simp [getCachedData, h, hlt]

/-- C2 witness: a live entry is returned, at a concrete input. -/
theorem C2_getCachedData_spec_witness :
    getCachedData [("k", (1 : ℕ), (5 : ℚ))] "k" 3 = (some 1, [("k", 1, 5)]) :=
  ((C2_getCachedData_spec [("k", 1, 5)] "k" 3).2 1 5 (by decide)).1 (by norm_num)

/-- C3: `setCachedData` followed immediately by `getCachedData` on the same
key returns the stored value whenever `ttl > 0`, for every prior cache state;
the upsert overwrites any existing entry for the key with expiry
`now + ttl * 1000` milliseconds (= now + ttl seconds). -/
theorem C3_set_then_get {α : Type} (cache : Cache α) (key : String) (value : α)
    (ttl : ℚ) (now : ℚ) (h : 0 < ttl) :
    (getCachedData (setCachedData cache key value ttl now) key now).1 =
        some value ∧
      lookupKey key (setCachedData cache key value ttl now) =
        some (value, now + ttl * 1000) := by
  have hl : lookupKey key (setCachedData cache key value ttl now) =
      some (value, now + ttl * 1000) :=
    lookupKey_upsertKey key value (now + ttl * 1000) cache
  refine ⟨?_, hl⟩
  have hexp : ¬ (now + ttl * 1000 < now) := by nlinarith
  simp [getCachedData, hl, hexp]

/-- C3 witness at a concrete input. -/
theorem C3_set_then_get_witness :
    (getCachedData (setCachedData ([] : Cache ℕ) "k" 7 30 100) "k" 100).1 =
        some 7 ∧
      lookupKey "k" (setCachedData ([] : Cache ℕ) "k" 7 30 100) =
        some (7, 100 + 30 * 1000) :=
  C3_set_then_get [] "k" 7 30 100 (by norm_num)

/-- C8 (counterexample): an entry whose expiry equals the current time
survives the sweep, because `cleanExpiredCache` deletes with a strict
`lt('expires_at', now)` filter; the claim says entries with expiry ≤ now are
deleted. -/
theorem C8_cex_sweep_keeps_exact_expiry :
    cleanExpiredCache [("k", (0 : ℕ), (5 : ℚ))] 5 = [("k", 0, 5)] ∧
      ((5 : ℚ) ≤ 5) := by
  refine ⟨by decide, by norm_num⟩

/-- C8 (amended): `cleanExpiredCache` deletes exactly the entries whose expiry
timestamp is STRICTLY LESS than the current time, and keeps every entry whose
expiry is greater than or equal to the current time, unchanged. -/
theorem C8_cleanExpiredCache_spec {α : Type} (cache : Cache α) (now : ℚ)
    (row : String × α × ℚ) :
    row ∈ cleanExpiredCache cache now ↔ row ∈ cache ∧ ¬ (row.2.2 < now) := by
  simp [cleanExpiredCache, List.mem_filter]

theorem haversineA_symm (lat1 lng1 lat2 lng2 : ℝ) :
    haversineA lat2 lng2 lat1 lng1 = haversineA lat1 lng1 lat2 lng2 := by
  unfold haversineA
  rw [show (lat1 - lat2) * Real.pi / 180 / 2 =
        -((lat2 - lat1) * Real.pi / 180 / 2) by ring,
      show (lng1 - lng2) * Real.pi / 180 / 2 =
        -((lng2 - lng1) * Real.pi / 180 / 2) by ring,
      Real.sin_neg, Real.sin_neg]
  ring

theorem haversineA_self (lat lng : ℝ) : haversineA lat lng lat lng = 0 := by
  unfold haversineA
  simp

theorem haversineA_eq_spec_a (lat1 lng1 lat2 lng2 : ℝ) :
    haversineA lat1 lng1 lat2 lng2 =
      Real.sin ((lat2 * Real.pi / 180 - lat1 * Real.pi / 180) / 2) ^ 2 +
        Real.cos (lat1 * Real.pi / 180) * Real.cos (lat2 * Real.pi / 180) *
          Real.sin ((lng2 * Real.pi / 180 - lng1 * Real.pi / 180) / 2) ^ 2 := by
  unfold haversineA
  rw [show (lat2 * Real.pi / 180 - lat1 * Real.pi / 180) / 2 =
        (lat2 - lat1) * Real.pi / 180 / 2 by ring,
      show (lng2 * Real.pi / 180 - lng1 * Real.pi / 180) / 2 =
        (lng2 - lng1) * Real.pi / 180 / 2 by ring]
  ring

theorem atan2_zero_one : atan2 0 1 = 0 := by
  unfold atan2
  norm_num

/-- C4: `calculateDistance` IS the specification's haversine formula with
Earth radius 6371 km (after the degree-to-radian conversion the code applies
to its inputs), it is symmetric in its two points, and the distance from any
point to itself is 0. -/
theorem C4_calculateDistance_haversine :
    (∀ lat1 lng1 lat2 lng2 : ℝ,
        calculateDistance lat1 lng1 lat2 lng2 =
          haversineSpecification (lat1 * Real.pi / 180) (lng1 * Real.pi / 180)
            (lat2 * Real.pi / 180) (lng2 * Real.pi / 180)) ∧
      (∀ lat1 lng1 lat2 lng2 : ℝ,
        calculateDistance lat1 lng1 lat2 lng2 =
          calculateDistance lat2 lng2 lat1 lng1) ∧
      (∀ lat lng : ℝ, calculateDistance lat lng lat lng = 0) := by
  refine ⟨?_, ?_, ?_⟩
  · intro lat1 lng1 lat2 lng2
    unfold calculateDistance haversineSpecification
    rw [haversineA_eq_spec_a]
  · intro lat1 lng1 lat2 lng2
    unfold calculateDistance
    rw [haversineA_symm]
  · intro lat lng
    unfold calculateDistance
    rw [haversineA_self]
    norm_num [atan2_zero_one]

theorem jitterBound (b r : ℚ) (h0 : 0 ≤ r) (h1 : r ≤ 1) :
    |b + (r - 1/2) * (1/10) - b| ≤ 1/20 := by
  rw [add_sub_cancel_left, abs_le]
  constructor <;> nlinarith

/-- C1: on a cache miss, for an existing disaster whose scoped resource
query returns zero rows, the GET handler responds 200 with exactly the five
synthesized resources of the five fixed categories; the i-th carries the
i-th freshly generated identifier and the requested disaster identifier,
and its (always present) coordinates sit within ±0.05 degrees per axis of
the parsed search center — or of the default (40.7128, -74.0060) when no
center is given; the resources table is untouched (nothing is persisted). -/
theorem C1_mock_fallback (env : GetEnv) (d : Disaster)
    (hmiss : (getCachedData env.cache
      (cacheKeyOf env.disasterId env.lat env.lng env.radius env.qtype)
      env.now).1 = none)
    (hok : env.disasterResult = Except.ok d)
    (hfault : env.dbFault = false)
    (hempty : runQuery env.table
      (resourceQuery env.disasterId env.lat env.lng env.radius env.qtype)
      env.dist = [])
    (hrand : ∀ i : ℕ, 0 ≤ env.rand i ∧ env.rand i ≤ 1) :
    (handleGetResources env).status = 200 ∧
    (handleGetResources env).body = GetBody.payload
      { disaster_id := env.disasterId, disaster_title := d.title,
        search_center := searchCenterOf env.lat env.lng,
        search_radius_km := radiusNum env.radius / 1000,
        total_resources := (mocksOf env).length,
        resources := (mocksOf env).map ResOut.mock,
        last_updated := env.nowIso } ∧
    (mocksOf env).length = 5 ∧
    (mocksOf env).map MockResource.type =
      ["shelter", "medical", "food", "supplies", "housing"] ∧
    (mocksOf env).map MockResource.id =
      [env.uuid 0, env.uuid 1, env.uuid 2, env.uuid 3, env.uuid 4] ∧
    (∀ m ∈ mocksOf env, m.disaster_id = env.disasterId ∧
      |m.latitude - (jitterBase env.lat env.lng).1| ≤ 1/20 ∧
      |m.longitude - (jitterBase env.lat env.lng).2| ≤ 1/20) ∧
    (handleGetResources env).table = env.table := by
  refine ⟨?_, ?_, ?_, ?_, ?_, ?_, ?_⟩
  · simp [handleGetResources, hmiss, hok, hfault, hempty]
  · simp [handleGetResources, hmiss, hok, hfault, hempty, mocksOf]
  · simp [mocksOf, generateMockResources, baseResources, List.enum,
      List.enumFrom]
  · simp [mocksOf, generateMockResources, baseResources, List.enum,
      List.enumFrom]
  · simp [mocksOf, generateMockResources, baseResources, List.enum,
      List.enumFrom]
  · intro m hm
    simp only [mocksOf, generateMockResources, baseResources, List.enum,
      List.enumFrom, List.map_cons, List.map_nil, List.mem_cons,
      List.not_mem_nil, or_false] at hm
    rcases hm with rfl | rfl | rfl | rfl | rfl <;>
      refine ⟨rfl, ?_, ?_⟩ <;>
        simp only [jitterBase] <;>
          split_ifs <;>
            exact jitterBound _ _ (hrand _).1 (hrand _).2
  · simp [handleGetResources, hmiss, hok, hfault, hempty]

/-- C1 witness: concrete cache-miss request over an empty resources table. -/
theorem C1_mock_fallback_witness :
    (handleGetResources getEnvC1).status = 200 ∧
    (handleGetResources getEnvC1).body = GetBody.payload
      { disaster_id := getEnvC1.disasterId, disaster_title := disasterC1.title,
        search_center := searchCenterOf getEnvC1.lat getEnvC1.lng,
        search_radius_km := radiusNum getEnvC1.radius / 1000,
        total_resources := (mocksOf getEnvC1).length,
        resources := (mocksOf getEnvC1).map ResOut.mock,
        last_updated := getEnvC1.nowIso } ∧
    (mocksOf getEnvC1).length = 5 ∧
    (mocksOf getEnvC1).map MockResource.type =
      ["shelter", "medical", "food", "supplies", "housing"] ∧
    (mocksOf getEnvC1).map MockResource.id =
      [getEnvC1.uuid 0, getEnvC1.uuid 1, getEnvC1.uuid 2, getEnvC1.uuid 3,
       getEnvC1.uuid 4] ∧
    (∀ m ∈ mocksOf getEnvC1, m.disaster_id = getEnvC1.disasterId ∧
      |m.latitude - (jitterBase getEnvC1.lat getEnvC1.lng).1| ≤ 1/20 ∧
      |m.longitude - (jitterBase getEnvC1.lat getEnvC1.lng).2| ≤ 1/20) ∧
    (handleGetResources getEnvC1).table = getEnvC1.table :=
  C1_mock_fallback getEnvC1 disasterC1 rfl rfl rfl rfl
    (fun _ => by constructor <;> norm_num [getEnvC1])

/-- C5 (counterexample): with a live cached response for the request key, the
handler answers 200 from the cache without ever checking that the disaster
exists, even though the disaster lookup would report it absent — so the
universally quantified "fails with NotFound" is false as stated. -/
theorem C5_cex_cache_bypasses_not_found :
    (handleGetResources getEnvC5).status = 200 ∧
      getEnvC5.disasterResult = Except.error { code := "PGRST116" } := by
  exact ⟨by decide, rfl⟩

/-- C5 (amended): ON A CACHE MISS, a GET for a disaster id whose lookup
reports no row (PGRST116) yields 404 with the not-found body — never an
empty resource list — and a resources-query failure on the primary path
yields 500 with a generic-failure body carrying no partial results. -/
theorem C5_not_found_and_internal_error (env : GetEnv)
    (hmiss : (getCachedData env.cache
      (cacheKeyOf env.disasterId env.lat env.lng env.radius env.qtype)
      env.now).1 = none) :
    (∀ e : DbErr, env.disasterResult = Except.error e → e.code = "PGRST116" →
      (handleGetResources env).status = 404 ∧
        (handleGetResources env).body = GetBody.disasterNotFound) ∧
    (∀ d : Disaster, env.disasterResult = Except.ok d → env.dbFault = true →
      (handleGetResources env).status = 500 ∧
        (handleGetResources env).body = GetBody.fetchResourcesFailed) := by
  constructor
  · intro e he hcode
    simp [handleGetResources, hmiss, he, hcode]
  · intro d hd hf
    simp [handleGetResources, hmiss, hd, hf]

/-- C5 witness: concrete cache-miss request for an absent disaster. -/
theorem C5_not_found_and_internal_error_witness :
    (handleGetResources getEnvC5m).status = 404 ∧
      (handleGetResources getEnvC5m).body = GetBody.disasterNotFound :=
  (C5_not_found_and_internal_error getEnvC5m rfl).1 { code := "PGRST116" }
    rfl rfl

theorem mock_distance_of_center (disasterId : String) (lat lng : Option String)
    (rand : ℕ → ℚ) (uuid : ℕ → String) (dist : ℚ → ℚ → ℚ → ℚ → ℚ)
    (nowIso : String) (hc : (truthyStr lat && truthyStr lng) = true) :
    ∀ m ∈ generateMockResources disasterId lat lng rand uuid dist nowIso,
      m.distance_km = some (dist (parseFloatQ (lat.getD ""))
        (parseFloatQ (lng.getD "")) m.latitude m.longitude) := by
  intro m hm
  simp only [generateMockResources, List.mem_map] at hm
  obtain ⟨p, hp, rfl⟩ := hm
  simp [hc]

theorem mock_distance_of_no_center (disasterId : String)
    (lat lng : Option String) (rand : ℕ → ℚ) (uuid : ℕ → String)
    (dist : ℚ → ℚ → ℚ → ℚ → ℚ) (nowIso : String)
    (hc : (truthyStr lat && truthyStr lng) = false) :
    ∀ m ∈ generateMockResources disasterId lat lng rand uuid dist nowIso,
      m.distance_km = none := by
  intro m hm
  simp only [generateMockResources, List.mem_map] at hm
  obtain ⟨p, hp, rfl⟩ := hm
  simp [hc]

theorem jsonFields_distance_null (m : MockResource)
    (h : m.distance_km = none) :
    m.jsonFields.lookup "distance_km" = some JVal.nullV := by
  simp only [MockResource.jsonFields, h]
  rfl

theorem withinDistance_mem (rows : List RealRes) (g : GeoFilter)
    (dist : ℚ → ℚ → ℚ → ℚ → ℚ) (r : RealRes)
    (h : r ∈ getResourcesWithinDistance rows g dist) :
    ∃ la ln, r.lat = some la ∧ r.lng = some ln ∧
      r.distance_km = some (dist g.center_lat g.center_lng la ln) := by
  simp only [getResourcesWithinDistance, List.mem_filterMap] at h
  obtain ⟨r0, hr0, hf⟩ := h
  rcases hl : r0.lat with _ | la <;> rcases hn : r0.lng with _ | ln <;>
    simp only [hl, hn] at hf
  all_goals try cases hf
  all_goals
    split_ifs at hf with hd
    simp only [Option.some.injEq] at hf
    subst hf
    exact ⟨la, ln, by simp [hl], by simp [hn], by simp⟩

/-- C6 (counterexample): when no center is supplied the synthesized
resources do NOT omit the distance field: the serialized record of the first
returned resource still contains the `distance_km` key, bound to null. -/
theorem C6_cex_distance_key_not_omitted :
    getEnvC6.lat = none ∧ getEnvC6.lng = none ∧
    ((handleGetResources getEnvC6).resourcesOf.map (fun ro =>
      match ro with
      | ResOut.mock m => m.jsonFields.lookup "distance_km"
      | ResOut.real _ => none)).head? = some (some JVal.nullV) := by
  refine ⟨rfl, rfl, by decide⟩

/-- C6 (amended): on a cache miss for an existing disaster with no datastore
fault, over a table whose rows carry no distance column: when both
coordinates are supplied (truthy), every returned resource — a real row
surviving the spec-modelled within-distance query, or a synthesized one —
carries the computed distance to the parsed center in kilometers; when
either coordinate is absent or empty, the built query applies no distance
filter and no numeric distance is reported, but the synthesized records
still serialize a `distance_km` key with value null (the key is present,
not omitted), while real rows keep their absent distance column. -/
theorem C6_distance_reporting (env : GetEnv) (d : Disaster)
    (hmiss : (getCachedData env.cache
      (cacheKeyOf env.disasterId env.lat env.lng env.radius env.qtype)
      env.now).1 = none)
    (hok : env.disasterResult = Except.ok d)
    (hfault : env.dbFault = false)
    (htable : ∀ r ∈ env.table, r.distance_km = none) :
    ((truthyStr env.lat && truthyStr env.lng) = true →
      ∀ ro ∈ (handleGetResources env).resourcesOf,
        (∀ m : MockResource, ro = ResOut.mock m →
          m.distance_km = some (env.dist (parseFloatQ (env.lat.getD ""))
            (parseFloatQ (env.lng.getD "")) m.latitude m.longitude)) ∧
        (∀ r : RealRes, ro = ResOut.real r →
          ∃ la ln, r.lat = some la ∧ r.lng = some ln ∧
            r.distance_km = some (env.dist (parseFloatQ (env.lat.getD ""))
              (parseFloatQ (env.lng.getD "")) la ln))) ∧
    ((truthyStr env.lat && truthyStr env.lng) = false →
      (resourceQuery env.disasterId env.lat env.lng env.radius env.qtype).geo
        = none ∧
      ∀ ro ∈ (handleGetResources env).resourcesOf,
        (∀ m : MockResource, ro = ResOut.mock m →
          m.jsonFields.lookup "distance_km" = some JVal.nullV) ∧
        (∀ r : RealRes, ro = ResOut.real r → r.distance_km = none)) := by
  constructor
  · intro hc ro hro
    by_cases hlen : (runQuery env.table
        (resourceQuery env.disasterId env.lat env.lng env.radius env.qtype)
        env.dist).length = 0
    · simp [handleGetResources, hmiss, hok, hfault, hlen,
        GetOut.resourcesOf, List.mem_map] at hro
      obtain ⟨m, hm, rfl⟩ := hro
      constructor
      · intro m' hm'
        cases hm'
        exact mock_distance_of_center env.disasterId env.lat env.lng env.rand
          env.uuid env.dist env.nowIso hc m hm
      · intro r hr
        cases hr
    · simp [handleGetResources, hmiss, hok, hfault, hlen,
        GetOut.resourcesOf, List.mem_map] at hro
      obtain ⟨r, hr, rfl⟩ := hro
      constructor
      · intro m hm
        cases hm
      · intro r' hr'
        cases hr'
        have hq : (resourceQuery env.disasterId env.lat env.lng env.radius
            env.qtype).geo = some
              { center_lat := parseFloatQ (env.lat.getD ""),
                center_lng := parseFloatQ (env.lng.getD ""),
                radius_meters := parseIntQ (radiusStr env.radius) } := by
          simp [resourceQuery, hc]
        simp only [runQuery, hq] at hr
        exact withinDistance_mem _ _ _ _ hr
  · intro hc
    have hq : (resourceQuery env.disasterId env.lat env.lng env.radius
        env.qtype).geo = none := by
      simp [resourceQuery, hc]
    refine ⟨hq, ?_⟩
    intro ro hro
    by_cases hlen : (runQuery env.table
        (resourceQuery env.disasterId env.lat env.lng env.radius env.qtype)
        env.dist).length = 0
    · simp [handleGetResources, hmiss, hok, hfault, hlen,
        GetOut.resourcesOf, List.mem_map] at hro
      obtain ⟨m, hm, rfl⟩ := hro
      constructor
      · intro m' hm'
        cases hm'
        exact jsonFields_distance_null m
          (mock_distance_of_no_center env.disasterId env.lat env.lng env.rand
            env.uuid env.dist env.nowIso hc m hm)
      · intro r hr
        cases hr
    · simp [handleGetResources, hmiss, hok, hfault, hlen,
        GetOut.resourcesOf, List.mem_map] at hro
      obtain ⟨r, hr, rfl⟩ := hro
      constructor
      · intro m hm
        cases hm
      · intro r' hr'
        cases hr'
        simp only [runQuery, hq] at hr
        exact htable r (List.mem_filter.1 hr).1

/-- C6 witness: with both coordinates missing, the built query carries no
distance filter. -/
theorem C6_distance_reporting_witness :
    (resourceQuery getEnvC6.disasterId getEnvC6.lat getEnvC6.lng
      getEnvC6.radius getEnvC6.qtype).geo = none :=
  ((C6_distance_reporting getEnvC6 { id := "d1", title := "T" } rfl rfl rfl
    (by simp [getEnvC6])).2 rfl).1

/-! ## Claims about POST /resources -/

/-- C9: a POST /resources request in which any of `disaster_id`, `name` or
`type` is missing is rejected with 400 immediately: the stored resource set
is unchanged and nothing is broadcast. -/
theorem C9_post_missing_fields (env : PostEnv)
    (h : env.body.disaster_id = none ∨ env.body.name = none ∨
      env.body.type = none) :
    (handlePostResource env).status = 400 ∧
      (handlePostResource env).table = env.table ∧
      (handlePostResource env).events = [] := by
  have hf : (truthyStr env.body.disaster_id && truthyStr env.body.name &&
      truthyStr env.body.type) = false := by
    rcases h with h | h | h <;> simp [truthyStr, h]
  simp [handlePostResource, hf]

/-- C9 witness at a concrete request with a missing `disaster_id`. -/
theorem C9_post_missing_fields_witness :
    (handlePostResource postEnvC9).status = 400 ∧
      (handlePostResource postEnvC9).table = [] ∧
      (handlePostResource postEnvC9).events = [] :=
  C9_post_missing_fields postEnvC9 (Or.inl rfl)

/-- C7: once a creating mutation passes validation, a failed insert
broadcasts nothing (500, table unchanged), and a successful insert
broadcasts exactly one `resources_updated` event to the room
`disaster_${disaster_id}` whose payload is precisely the record that was
persisted (appended to the table), i.e. at most one broadcast per mutation
and only after persistence succeeds. -/
theorem C7_broadcast_once (env : PostEnv)
    (h : (truthyStr env.body.disaster_id && truthyStr env.body.name &&
      truthyStr env.body.type) = true) :
    (env.insertFault = true →
      (handlePostResource env).events = [] ∧
        (handlePostResource env).status = 500 ∧
        (handlePostResource env).table = env.table) ∧
    (env.insertFault = false →
      ∃ r : NewResource,
        (handlePostResource env).events =
          [{ room := "disaster_" ++ env.body.disaster_id.getD "",
             event := "resources_updated", payload := r }] ∧
          (handlePostResource env).table = env.table ++ [r] ∧
          (handlePostResource env).status = 201) := by
  constructor
  · intro hf
    simp [handlePostResource, h, hf]
  · intro hf
    refine ⟨newResourceOf env.body env.uuid, ?_, ?_, ?_⟩ <;>
      simp [handlePostResource, h, hf]

/-- C7 witness: a concrete successful creation broadcasts exactly once. -/
theorem C7_broadcast_once_witness :
    ∃ r : NewResource,
      (handlePostResource postEnvC7).events =
        [{ room := "disaster_" ++ postEnvC7.body.disaster_id.getD "",
           event := "resources_updated", payload := r }] ∧
        (handlePostResource postEnvC7).table = postEnvC7.table ++ [r] ∧
        (handlePostResource postEnvC7).status = 201 :=
  (C7_broadcast_once postEnvC7 (by decide)).2 rfl

/-- C10 (counterexample): a GET with `lat=0&lng=0` is NOT treated as having
absent coordinates: the query values are the strings "0", which are truthy,
so the handler builds a distance-filtered query and echoes the non-null
search center (0, 0) instead of reporting it as null. -/
theorem C10_cex_zero_lat_is_truthy :
    getEnvC10.lat = some "0" ∧ getEnvC10.lng = some "0" ∧
    (resourceQuery getEnvC10.disasterId getEnvC10.lat getEnvC10.lng
      getEnvC10.radius getEnvC10.qtype).geo =
        some { center_lat := 0, center_lng := 0, radius_meters := 10000 } ∧
    (handleGetResources getEnvC10).centerEcho = some (some (0, 0)) := by
  refine ⟨rfl, rfl, by decide, by decide⟩

/-- C10 (amended): presence of coordinates is tested by JavaScript
truthiness, and the two interfaces hand the handler different value types.
In a POST body (JSON-parsed) a numeric `lat = 0` or `lng = 0` is falsy, so
the created resource is stored without a geographic point.  In a GET request
the query values are strings, so `lat=0` arrives as the non-empty string
"0", which IS truthy: the handler builds a distance-filtered query and
echoes the parsed center.  Only a missing or empty GET query value is
treated as absent, in which case no distance filter is applied, the echoed
center is null, the synthesized resources carry a null distance, and the
jitter base is the default NYC coordinate (40.7128, -74.0060). -/
theorem C10_truthiness_at_interfaces :
    (∀ env : PostEnv, (env.body.lat = some 0 ∨ env.body.lng = some 0) →
      ∀ r : NewResource,
        (handlePostResource env).body = PostRespBody.created r →
          r.location = none) ∧
    (∀ env : GetEnv, ∀ s t : String, env.lat = some s → env.lng = some t →
      s ≠ "" → t ≠ "" →
      (resourceQuery env.disasterId env.lat env.lng env.radius env.qtype).geo
        = some { center_lat := parseFloatQ s, center_lng := parseFloatQ t,
                 radius_meters := parseIntQ (radiusStr env.radius) } ∧
      searchCenterOf env.lat env.lng = some (parseFloatQ s, parseFloatQ t)) ∧
    (∀ env : GetEnv, (truthyStr env.lat && truthyStr env.lng) = false →
      (resourceQuery env.disasterId env.lat env.lng env.radius env.qtype).geo
        = none ∧
      searchCenterOf env.lat env.lng = none ∧
      (∀ m ∈ mocksOf env, m.distance_km = none) ∧
      jitterBase env.lat env.lng = (407128/10000, -740060/10000)) := by
  refine ⟨?_, ?_, ?_⟩
  · intro env h r hr
    have hz : (truthyNum env.body.lat && truthyNum env.body.lng) = false := by
      rcases h with h | h <;> simp [truthyNum, h]
    by_cases hv : (truthyStr env.body.disaster_id && truthyStr env.body.name
        && truthyStr env.body.type) = true
    · by_cases hf : env.insertFault = true
      · simp [handlePostResource, hv, hf] at hr
      · simp only [Bool.not_eq_true] at hf
        simp [handlePostResource, hv, hf] at hr
        subst hr
        simp [newResourceOf, hz]
    · simp only [Bool.not_eq_true] at hv
      simp [handlePostResource, hv] at hr
  · intro env s t hs ht hs' ht'
    have hc : (truthyStr env.lat && truthyStr env.lng) = true := by
      simp [truthyStr, hs, ht, hs', ht']
    constructor
    · simp [resourceQuery, truthyStr, hc, hs, ht, hs', ht']
    · simp [searchCenterOf, truthyStr, hc, hs, ht, hs', ht']
  · intro env hc
    refine ⟨by simp [resourceQuery, hc], by simp [searchCenterOf, hc],
      ?_, by simp [jitterBase, hc]⟩
    exact mock_distance_of_no_center env.disasterId env.lat env.lng env.rand
      env.uuid env.dist env.nowIso hc

/-- C10 witness: the GET conjunct applied to the concrete `lat=0&lng=0`
request. -/
theorem C10_truthiness_at_interfaces_witness :
    (resourceQuery getEnvC10.disasterId getEnvC10.lat getEnvC10.lng
      getEnvC10.radius getEnvC10.qtype).geo =
      some { center_lat := parseFloatQ "0", center_lng := parseFloatQ "0",
             radius_meters := parseIntQ (radiusStr getEnvC10.radius) } ∧
    searchCenterOf getEnvC10.lat getEnvC10.lng =
      some (parseFloatQ "0", parseFloatQ "0") :=
  C10_truthiness_at_interfaces.2.1 getEnvC10 "0" "0" rfl rfl (by decide)
    (by decide)

end DisasterApp
